import Mathlib

/-!
Verification of the CMX-Stats build pipeline (`src/build.py`).

The development shallowly embeds the data-normalization and aggregation
pipeline of `build.py`:

* the per-cell coercion performed by `load_data` on the players table
  (polars `read_csv` with `null_values=["#DIV/0!"]`, `cast(pl.Int64,
  strict=False)` on the integer columns, `cast(pl.String)
  .str.replace(",", ".").cast(pl.Float64, strict=False)` on the float
  columns, the `fill_null(0).cast(pl.Int64, strict=False)` special case for
  "Minuts sense gols (porter)", the `Jugador` / `Partits` row filters, and
  the final 2-decimal rounding of float columns);
* `calculate_stats` over the clean match rows;
* the cumulative chart scan inside `render_pages` (sort by "Jornada", then
  a running-total walk);
* `get_top_player` and the leaderboard metric instantiations;
* the `Grogues_Ratio` derived column `(Grogues / Partits).fill_nan(0)`.

Modelling conventions:

* A raw CSV cell is `Option String`: `none` is an empty cell, `some s` the
  textual content.  The float pipeline in the source first casts every
  column to `pl.String`, so the textual view is faithful for it; for the
  integer columns the textual view coincides with the inferred-dtype view
  on the inputs exercised here (a column holding non-numeric text is read
  as a String column by `read_csv`, and an all-integer column round-trips
  through its decimal numerals).
* A polars `Float64` is modelled by `F64`: `nan`, the two infinities, or a
  finite value carried as an exact rational.  Binary-float rounding of
  parses, divisions and of the 2-decimal rounding step is not modelled;
  every concrete value appearing in a theorem below (halves, hundredths,
  small integers, powers of ten up to 10^19) is exactly representable, so
  no statement depends on the gap.
* Exponent forms of float literals are not parsed by the model; no
  statement uses them.
-/

/-- A polars `Float64` value: NaN, the infinities, or a finite value,
modelled as an exact rational (see the module docstring). -/
inductive F64 where
  | nan : F64
  | inf : F64
  | ninf : F64
  | fin : Rat → F64
deriving DecidableEq

/-- Comparison used by polars when sorting a `Float64` column: the finite
values in numeric order, `-inf` below all of them, `+inf` above, and NaN
sorted as the largest value of all. -/
def F64.ble : F64 → F64 → Bool
  | .ninf, _ => true
  | _, .nan => true
  | .nan, _ => false
  | _, .ninf => false
  | _, .inf => true
  | .inf, _ => false
  | .fin a, .fin b => a ≤ b

/-- Negation of a `Float64` value (used for a parsed leading minus sign). -/
def F64.neg : F64 → F64
  | .nan => .nan
  | .inf => .ninf
  | .ninf => .inf
  | .fin q => .fin (-q)

/-- Decimal digit test on a character. -/
def isDigitChar (c : Char) : Bool := 48 ≤ c.toNat && c.toNat ≤ 57

/-- Value of a list of decimal digits, most significant first. -/
def digitsToNat (ds : List Char) : Nat :=
  ds.foldl (fun n c => 10 * n + (c.toNat - 48)) 0

/-- Parse an unsigned decimal numeral, optionally with a fractional part
(`"12"`, `"12.5"`, `"12."`, `".5"`), as an exact rational. -/
def parseDec (cs : List Char) : Option Rat :=
  let intPart := cs.takeWhile isDigitChar
  let rest := cs.dropWhile isDigitChar
  match rest with
  | [] => if intPart.isEmpty then none else some (digitsToNat intPart : Rat)
  | '.' :: frac =>
    if frac.all isDigitChar && !(intPart.isEmpty && frac.isEmpty) then
      some ((digitsToNat intPart : Rat) + (digitsToNat frac : Rat) / (10 : Rat) ^ frac.length)
    else none
  | _ => none

/-- Parse the magnitude part of a float literal: a decimal numeral or one of
the `inf` / `infinity` / `nan` keywords (the input is already lowercased). -/
def parseMagnitude (cs : List Char) : Option F64 :=
  if cs = "inf".data ∨ cs = "infinity".data then some .inf
  else if cs = "nan".data then some .nan
  else (parseDec cs).map .fin

/-- ASCII lowering of one character, used to model the case-insensitive
acceptance of the `inf`/`nan` keywords; digits, signs and punctuation are
unaffected. -/
def lowerChar (c : Char) : Char :=
  if 65 ≤ c.toNat ∧ c.toNat ≤ 90 then Char.ofNat (c.toNat + 32) else c

/-- String-to-`Float64` conversion as performed by
`cast(pl.Float64, strict=False)` on a String column: optional sign, then a
decimal numeral or an `inf`/`nan` keyword (case-insensitive); anything else
fails, which under `strict=False` produces a null. -/
def parseF64 (s : String) : Option F64 :=
  match s.data.map lowerChar with
  | '-' :: rest => (parseMagnitude rest).map F64.neg
  | '+' :: rest => parseMagnitude rest
  | cs => parseMagnitude cs

/-- Replace the first comma of a character list by a period. -/
def replaceFirstCommaAux : List Char → List Char
  | [] => []
  | ',' :: rest => '.' :: rest
  | c :: rest => c :: replaceFirstCommaAux rest

/-- The source's `.str.replace(",", ".")`: polars `str.replace` substitutes
only the first occurrence of the literal pattern. -/
def replaceFirstComma (s : String) : String :=
  String.mk (replaceFirstCommaAux s.data)

/-- String-to-`Int64` conversion as performed by
`cast(pl.Int64, strict=False)` on a String column: an optional sign followed
by decimal digits, and the value must fit in a signed 64-bit integer;
anything else produces a null. -/
def parseInt64 (s : String) : Option Int :=
  let signed : Option Int :=
    match s.data with
    | '-' :: ds => if !ds.isEmpty && ds.all isDigitChar then some (-(digitsToNat ds : Int)) else none
    | '+' :: ds => if !ds.isEmpty && ds.all isDigitChar then some (digitsToNat ds : Int) else none
    | ds => if !ds.isEmpty && ds.all isDigitChar then some (digitsToNat ds : Int) else none
  signed.bind fun n =>
    if -9223372036854775808 ≤ n ∧ n ≤ 9223372036854775807 then some n else none

/-- Truncation toward zero of a finite float value, the rounding used when
casting `Float64` to an integer dtype. -/
def f64TruncToInt (q : Rat) : Int := if 0 ≤ q then ⌊q⌋ else ⌈q⌉

/-- Cast `cast(pl.Int64, strict=False)` on a `Float64` column: NaN, the
infinities and finite values outside the `Int64` range become null; finite
in-range values are truncated toward zero. -/
def castF64Int64 : F64 → Option Int
  | .nan => none
  | .inf => none
  | .ninf => none
  | .fin q =>
    let t := f64TruncToInt q
    if -9223372036854775808 ≤ t ∧ t ≤ 9223372036854775807 then some t else none

/-- Ingestion of one raw cell by `read_csv(..., null_values=["#DIV/0!"])`:
the division-by-zero error token is read as null, every other cell is kept
as is.  This mapping is column-independent. -/
def readCell : Option String → Option String
  | none => none
  | some s => if s = "#DIV/0!" then none else some s

/-- Coercion of one cell of an integer column
(`pl.col(col).cast(pl.Int64, strict=False)`, build.py line 26). -/
def castIntCol (c : Option String) : Option Int :=
  c.bind parseInt64

/-- Coercion of one cell of a float column (`pl.col(col).cast(pl.String)
.str.replace(",", ".").cast(pl.Float64, strict=False)`, build.py line 37). -/
def castFloatCol (c : Option String) : Option F64 :=
  c.bind fun s => parseF64 (replaceFirstComma s)

/-- Coercion of one cell of the "Minuts sense gols (porter)" column: the
float-column coercion above, then `fill_null(0).cast(pl.Int64,
strict=False)` (build.py line 43). -/
def castMinutsCol (c : Option String) : Option Int :=
  castF64Int64 ((castFloatCol c).getD (F64.fin 0))

/-- Rounding of a `Float64` column entry to 2 decimal places, applied by
`round_df` (build.py line 71).  The exact tie-breaking mode of the float
rounding is not depended on by any statement below. -/
def round2F : F64 → F64
  | .fin q => .fin ((round (q * 100) : Int) / (100 : Rat))
  | v => v

/-- One raw row of the players CSV, restricted to the columns the verified
claims exercise.  The omitted columns ("Expulsions", "Normal", "Segon Pal",
"Penalti", "D. Penalti", "Tir Lliure (falta)" among the integer columns and
"Loss Rate", "Draw Rate", "Partits per gol", "Grogues_Ratio",
"Gols x partit en contra", "Gols x minut en contra" among the float
columns) undergo exactly the same per-column treatment as the retained
columns of their kind and are referenced by no claim. -/
structure RawPlayerRow where
  jugador : Option String
  partits : Option String
  gols : Option String
  assistencies : Option String
  grogues : Option String
  vermelles : Option String
  winRate : Option String
  golsXPartit : Option String
  assitenciesXPartit : Option String
  minutsSenseGols : Option String
deriving DecidableEq

/-- One clean player record as produced by `load_data`. -/
structure PlayerRecord where
  jugador : Option String
  partits : Option Int
  gols : Option Int
  assistencies : Option Int
  grogues : Option Int
  vermelles : Option Int
  winRate : Option F64
  golsXPartit : Option F64
  assitenciesXPartit : Option F64
  minutsSenseGols : Option Int
deriving DecidableEq

/-- The `null_values` mapping of `read_csv`, applied cell-wise to a raw
players row. -/
def readPlayerRow (r : RawPlayerRow) : RawPlayerRow :=
  { jugador := readCell r.jugador
    partits := readCell r.partits
    gols := readCell r.gols
    assistencies := readCell r.assistencies
    grogues := readCell r.grogues
    vermelles := readCell r.vermelles
    winRate := readCell r.winRate
    golsXPartit := readCell r.golsXPartit
    assitenciesXPartit := readCell r.assitenciesXPartit
    minutsSenseGols := readCell r.minutsSenseGols }

/-- The column coercions of `load_data` (build.py lines 22-44) applied to
one row: integer columns through `castIntCol`, float columns through
`castFloatCol`, and the "Minuts sense gols (porter)" special case through
`castMinutsCol`. -/
def coercePlayerRow (r : RawPlayerRow) : PlayerRecord :=
  { jugador := r.jugador
    partits := castIntCol r.partits
    gols := castIntCol r.gols
    assistencies := castIntCol r.assistencies
    grogues := castIntCol r.grogues
    vermelles := castIntCol r.vermelles
    winRate := castFloatCol r.winRate
    golsXPartit := castFloatCol r.golsXPartit
    assitenciesXPartit := castFloatCol r.assitenciesXPartit
    minutsSenseGols := castMinutsCol r.minutsSenseGols }

/-- The `round_df` pass (build.py lines 68-74) on one clean player record:
every `Float64` column is rounded to 2 decimals; "Minuts sense gols
(porter)" is an `Int64` column by this point and is untouched. -/
def roundPlayerRecord (p : PlayerRecord) : PlayerRecord :=
  { p with
    winRate := p.winRate.map round2F
    golsXPartit := p.golsXPartit.map round2F
    assitenciesXPartit := p.assitenciesXPartit.map round2F }

/-- The players half of `load_data` (build.py lines 16-47 and 74): read the
cells (error token to null), drop rows with a null "Jugador", coerce every
configured column, drop rows with a null "Partits", then round the float
columns. -/
def load_players (raws : List RawPlayerRow) : List PlayerRecord :=
  let rows := raws.map readPlayerRow
  let named := rows.filter fun r => r.jugador.isSome
  let coerced := named.map coercePlayerRow
  let valid := coerced.filter fun p => p.partits.isSome
  valid.map roundPlayerRecord

/-- One clean match record (a row of the weeks table after the
`Jornada.is_not_null` filter of `load_data`, build.py line 61): fixture
index, opponent label, side indicator, result indicator, and the two
scores.  Apart from the fixture index every field is nullable. -/
structure MatchRecord where
  jornada : Int
  vs : Option String
  posicio : Option String
  resultat : Option String
  marcadorLocal : Option Int
  marcadorVisitant : Option Int
deriving DecidableEq

/-- Points granted for a match by the chart scan (build.py lines 176-180):
3 for "Victòria", 1 for "Empat", 0 otherwise. -/
def matchPoints (r : MatchRecord) : Int :=
  if r.resultat = some "Victòria" then 3
  else if r.resultat = some "Empat" then 1
  else 0

/-- Side-indicator resolution of a match's (goals for, goals against),
with null scores read as 0.  This is the logic duplicated verbatim at
build.py lines 101-109 (`calculate_stats`) and 186-197 (chart scan): rows
whose "Posició" is neither "Local" nor "Visitant" contribute (0, 0). -/
def matchGoals (r : MatchRecord) : Int × Int :=
  let localGoals := r.marcadorLocal.getD 0
  let visitorGoals := r.marcadorVisitant.getD 0
  if r.posicio = some "Local" then (localGoals, visitorGoals)
  else if r.posicio = some "Visitant" then (visitorGoals, localGoals)
  else (0, 0)

/-- Number of rows whose "Resultat" equals the given value
(`df_weeks.filter(pl.col("Resultat") == res).height`). -/
def countRes (df : List MatchRecord) (res : String) : Nat :=
  df.countP fun r => r.resultat = some res

/-- The goal-accumulation loop of `calculate_stats` (build.py lines
97-109), carrying the (goals for, goals against) accumulator across the
rows in order. -/
def goalsLoop : Int × Int → List MatchRecord → Int × Int
  | acc, [] => acc
  | (gf, ga), r :: rs => goalsLoop (gf + (matchGoals r).1, ga + (matchGoals r).2) rs

/-- The season aggregate returned by `calculate_stats`. -/
structure SeasonStats where
  total_matches : Nat
  total_wins : Nat
  total_draws : Nat
  total_losses : Nat
  total_goals_for : Int
  total_goals_against : Int
deriving DecidableEq

/-- Aggregation `calculate_stats` (build.py lines 79-118) on the clean match rows. -/
def calculate_stats (df : List MatchRecord) : SeasonStats :=
  let goals := goalsLoop (0, 0) df
  { total_matches := df.length
    total_wins := countRes df "Victòria"
    total_draws := countRes df "Empat"
    total_losses := countRes df "Derrota"
    total_goals_for := goals.1
    total_goals_against := goals.2 }

/-- A polars frame of match rows as seen by `calculate_stats`: the column
names of its schema plus the typed rows.  A successful `read_csv` of the
weeks table yields `weeksSchema`; the load-failure fallback
`pl.DataFrame()` (build.py line 65) yields the schemaless empty frame. -/
structure WeeksFrame where
  schema : List String
  rows : List MatchRecord
deriving DecidableEq

/-- Schema of a successfully read weeks table. -/
def weeksSchema : List String :=
  ["Jornada", "vs.", "Posició", "Resultat", "Marcador Local", "Marcador Visitant"]

/-- The `pl.DataFrame()` produced when loading the weeks CSV fails
(build.py line 65): no columns, no rows. -/
def emptyWeeksFrame : WeeksFrame := ⟨[], []⟩

/-- Function `calculate_stats` as executed on a polars frame: every column access
resolves the name against the frame's schema, and polars raises
`ColumnNotFoundError` on a missing column — first at the
`filter(pl.col("Resultat") == ...)` of line 86, then at the bracket
accesses of line 92; the row loop of line 100 touches "Posició" only when
a row exists, raising a `KeyError` in that case.  The error value models
the exception propagating out of `calculate_stats` (there is no handler in
`main`). -/
def calculate_statsDF (df : WeeksFrame) : Except String SeasonStats :=
  if "Resultat" ∉ df.schema then .error "ColumnNotFoundError: Resultat"
  else if "Marcador Local" ∉ df.schema then .error "ColumnNotFoundError: Marcador Local"
  else if "Marcador Visitant" ∉ df.schema then .error "ColumnNotFoundError: Marcador Visitant"
  else if ¬df.rows.isEmpty ∧ "Posició" ∉ df.schema then .error "KeyError: Posició"
  else .ok (calculate_stats df.rows)

/-- The chart-ready data assembled by `render_pages` (build.py lines
161-211): per-match labels and results plus the three running-total
series. -/
structure ChartData where
  labels : List (Option String)
  points : List Int
  goals_for : List Int
  goals_against : List Int
  results : List (Option String)
deriving DecidableEq

/-- The running-total scan of `render_pages` (build.py lines 171-203),
carrying the running points / goals-for / goals-against accumulators. -/
def chartScan (p gf ga : Int) : List MatchRecord → ChartData
  | [] => ⟨[], [], [], [], []⟩
  | r :: rs =>
    let p' := p + matchPoints r
    let gf' := gf + (matchGoals r).1
    let ga' := ga + (matchGoals r).2
    let rest := chartScan p' gf' ga' rs
    ⟨r.vs :: rest.labels, p' :: rest.points, gf' :: rest.goals_for,
      ga' :: rest.goals_against, r.resultat :: rest.results⟩

/-- The cumulative-series builder of `render_pages`: sort the clean match
rows by "Jornada" ascending (build.py line 159; polars' sort is modelled by
a stable insertion sort — no claim depends on the order of equal keys),
then run the running-total scan from zero. -/
def render_chart_data (df : List MatchRecord) : ChartData :=
  chartScan 0 0 0 (List.insertionSort (fun a b => a.jornada ≤ b.jornada) df)

/-- A leaderboard entry as built by `get_top_player`: player identity, the
winning column value, and the display label.  The display-string formatting
(`f"{value}{suffix}"`) and the link field are rendering concerns carried
unchanged from the selected row and are not modelled. -/
structure TopEntry (α : Type) where
  name : Option String
  value : Option α
  label : String
deriving DecidableEq

/-- Lift of a column comparison to nullable cells; inside `get_top_player`
it is only ever applied to non-null cells. -/
def optBle (ble : α → α → Bool) : Option α → Option α → Bool
  | none, _ => true
  | some _, none => false
  | some a, some b => ble a b

/-- Selector `get_top_player` (build.py lines 251-264): drop the rows whose value in
the metric column is null, return `None` when nothing is left, otherwise
sort descending by the column and take the first row.  `ble` is the
ascending comparison polars uses for the column's dtype. -/
def get_top_player (ble : α → α → Bool) (df : List PlayerRecord)
    (col : PlayerRecord → Option α) (label : String) : Option (TopEntry α) :=
  let valid := df.filter fun p => (col p).isSome
  if valid.isEmpty then none
  else
    match List.insertionSort (fun a b => optBle ble (col b) (col a) = true) valid with
    | [] => none
    | top :: _ => some ⟨top.jugador, col top, label⟩

/-- Ascending comparison of an `Int64` column. -/
def intBle (a b : Int) : Bool := a ≤ b

/-- Leaderboard metric 1, "Màxim Golejador" (build.py line 270). -/
def top_scorer (df : List PlayerRecord) : Option (TopEntry Int) :=
  get_top_player intBle df (fun p => p.gols) "Màxim Golejador"

/-- Leaderboard metric 2, "Gols / Partit" (build.py line 274). -/
def top_scorer_pg (df : List PlayerRecord) : Option (TopEntry F64) :=
  get_top_player F64.ble df (fun p => p.golsXPartit) "Gols / Partit"

/-- Leaderboard metric 3, "Màxim Assistent" (build.py line 278). -/
def top_assistant (df : List PlayerRecord) : Option (TopEntry Int) :=
  get_top_player intBle df (fun p => p.assistencies) "Màxim Assistent"

/-- Leaderboard metric 4, "Ass. / Partit" (build.py line 282). -/
def top_assistant_pg (df : List PlayerRecord) : Option (TopEntry F64) :=
  get_top_player F64.ble df (fun p => p.assitenciesXPartit) "Ass. / Partit"

/-- Leaderboard metric 5, "Millor Porter (Minuts imbatut)" (build.py
line 286). -/
def top_gk (df : List PlayerRecord) : Option (TopEntry Int) :=
  get_top_player intBle df (fun p => p.minutsSenseGols) "Millor Porter (Minuts imbatut)"

/-- Leaderboard metric 6, "Major % Victòria" (build.py lines 292-308):
the source inlines the same filter-nulls / sort-descending / take-first
pipeline rather than calling `get_top_player`. -/
def top_win_rate (df : List PlayerRecord) : Option (TopEntry F64) :=
  let valid_wr := df.filter fun p => p.winRate.isSome
  if valid_wr.isEmpty then none
  else
    match List.insertionSort (fun a b => optBle F64.ble b.winRate a.winRate = true) valid_wr with
    | [] => none
    | top :: _ => some ⟨top.jugador, top.winRate, "Major % Victòria"⟩

/-- Division of two nullable `Int64` cells as polars evaluates
`pl.col("Grogues") / pl.col("Partits")`: a null operand gives null,
otherwise a `Float64` division — `0 / 0` is NaN, `a / 0` for nonzero `a`
is a signed infinity, and the quotient is exact otherwise (finite results
are carried as exact rationals, see the module docstring). -/
def polarsDivInt : Option Int → Option Int → Option F64
  | none, _ => none
  | _, none => none
  | some a, some b =>
    some (if b = 0 then (if a = 0 then .nan else if 0 < a then .inf else .ninf)
          else .fin ((a : Rat) / (b : Rat)))

/-- The `fill_nan(0)` step: NaN becomes 0; nulls, infinities and finite values are
untouched. -/
def fill_nan0 : F64 → F64
  | .nan => .fin 0
  | v => v

/-- The "Grogues_Ratio" derived column (build.py lines 312-314):
`(pl.col("Grogues") / pl.col("Partits")).fill_nan(0)`, per cell. -/
def grogues_Ratio (g p : Option Int) : Option F64 :=
  (polarsDivInt g p).map fill_nan0

/-- The two-match scenario of the spec's cumulative-series test: fixture 2
played away and won 1-3, fixture 1 played at home and drawn 1-1, listed out
of fixture order. -/
def ex6matches : List MatchRecord :=
  [⟨2, some "R1", some "Visitant", some "Victòria", some 1, some 3⟩,
   ⟨1, some "R2", some "Local", some "Empat", some 1, some 1⟩]

/-- A clean match row whose result indicator is none of the three
enumerated values. -/
def exBadResult : MatchRecord :=
  ⟨1, none, some "Local", some "Ajornat", some 0, some 0⟩

/-- Two home wins, the second with a negative home score cell. -/
def exNegMatches : List MatchRecord :=
  [⟨1, none, some "Local", some "Victòria", some 1, some 0⟩,
   ⟨2, none, some "Local", some "Victòria", some (-1), some 0⟩]

/-- Three clean player records with 5, 9 and null goals. -/
def exC9players : List PlayerRecord :=
  [⟨some "A", some 10, some 5, none, none, none, none, none, none, some 0⟩,
   ⟨some "B", some 10, some 9, none, none, none, none, none, none, some 0⟩,
   ⟨some "C", some 10, none, none, none, none, none, none, none, some 0⟩]

/-- A raw players row whose "Minuts sense gols (porter)" cell holds the
numeral 10^19, which parses as a float but exceeds the `Int64` range. -/
def exRowOverflow : RawPlayerRow :=
  ⟨some "A", some "5", none, none, none, none, none, none, none,
    some "10000000000000000000"⟩

/-- Helper sums over a match list: total chart points, total goals for,
total goals against. -/
def sumPts (l : List MatchRecord) : Int := (l.map matchPoints).sum

/-- Total of the resolved goals-for of a match list. -/
def sumGF (l : List MatchRecord) : Int := (l.map fun r => (matchGoals r).1).sum

/-- Total of the resolved goals-against of a match list. -/
def sumGA (l : List MatchRecord) : Int := (l.map fun r => (matchGoals r).2).sum

/-- The running-total view of one chart series: each element is the
accumulator after adding the increment of the corresponding match. -/
def runningList (f : MatchRecord → Int) (acc : Int) : List MatchRecord → List Int
  | [] => []
  | r :: rs => (acc + f r) :: runningList f (acc + f r) rs

lemma chartScan_points_eq (l : List MatchRecord) :
    ∀ p gf ga, (chartScan p gf ga l).points = runningList matchPoints p l := by
  induction l with
  | nil => intro p gf ga; rfl
  | cons r t ih => intro p gf ga; simp [chartScan, runningList, ih]

lemma chartScan_goals_for_eq (l : List MatchRecord) :
    ∀ p gf ga, (chartScan p gf ga l).goals_for = runningList (fun r => (matchGoals r).1) gf l := by
  induction l with
  | nil => intro p gf ga; rfl
  | cons r t ih => intro p gf ga; simp [chartScan, runningList, ih]

lemma chartScan_goals_against_eq (l : List MatchRecord) :
    ∀ p gf ga, (chartScan p gf ga l).goals_against = runningList (fun r => (matchGoals r).2) ga l := by
  induction l with
  | nil => intro p gf ga; rfl
  | cons r t ih => intro p gf ga; simp [chartScan, runningList, ih]

lemma runningList_length (f : MatchRecord → Int) (l : List MatchRecord) :
    ∀ acc, (runningList f acc l).length = l.length := by
  induction l with
  | nil => intro acc; rfl
  | cons r t ih => intro acc; simp [runningList, ih]

lemma runningList_getLast? (f : MatchRecord → Int) (l : List MatchRecord) :
    ∀ acc, l ≠ [] → (runningList f acc l).getLast? = some (acc + (l.map f).sum) := by
  induction l with
  | nil => intro acc h; exact absurd rfl h
  | cons r t ih =>
    intro acc _
    cases t with
    | nil => simp [runningList]
    | cons s u =>
      have h := ih (acc + f r) (by simp)
      rw [runningList] at h
      rw [runningList, runningList, List.getLast?_cons_cons, h]
      simp only [List.map_cons, List.sum_cons]
      congr 1
      ring

lemma runningList_chain' (f : MatchRecord → Int) :
    ∀ l : List MatchRecord, (∀ r ∈ l, 0 ≤ f r) →
      ∀ acc, List.Chain' (· ≤ ·) (runningList f acc l) := by
  intro l
  induction l with
  | nil => intro _ acc; simp [runningList]
  | cons r t ih =>
    intro h acc
    rw [runningList, List.chain'_cons']
    refine ⟨?_, ih (fun x hx => h x (List.mem_cons_of_mem _ hx)) (acc + f r)⟩
    intro y hy
    cases t with
    | nil => simp [runningList] at hy
    | cons s u =>
      rw [runningList] at hy
      simp only [List.head?_cons, Option.mem_def, Option.some.injEq] at hy
      have hs : 0 ≤ f s := h s (by simp)
      omega

lemma matchPoints_nonneg (r : MatchRecord) : 0 ≤ matchPoints r := by
  unfold matchPoints; split_ifs <;> norm_num

lemma matchGoals_nonneg {r : MatchRecord}
    (hl : 0 ≤ r.marcadorLocal.getD 0) (hv : 0 ≤ r.marcadorVisitant.getD 0) :
    0 ≤ (matchGoals r).1 ∧ 0 ≤ (matchGoals r).2 := by
  unfold matchGoals; split_ifs <;> simp_all

lemma goalsLoop_eq (l : List MatchRecord) :
    ∀ gf ga : Int, goalsLoop (gf, ga) l = (gf + sumGF l, ga + sumGA l) := by
  induction l with
  | nil => intro gf ga; simp [goalsLoop, sumGF, sumGA]
  | cons r t ih =>
    intro gf ga
    rw [goalsLoop, ih]
    simp only [sumGF, sumGA, List.map_cons, List.sum_cons, Prod.mk.injEq]
    constructor <;> ring

lemma calculate_stats_goals (df : List MatchRecord) :
    (calculate_stats df).total_goals_for = sumGF df ∧
    (calculate_stats df).total_goals_against = sumGA df := by
  simp only [calculate_stats]
  rw [goalsLoop_eq]
  simp

lemma sumPts_eq (l : List MatchRecord) :
    sumPts l = 3 * (countRes l "Victòria" : Int) + (countRes l "Empat" : Int) := by
  induction l with
  | nil => simp [sumPts, countRes]
  | cons r t ih =>
    have hc : sumPts (r :: t) = matchPoints r + sumPts t := by simp [sumPts]
    rw [hc, ih]
    simp only [countRes, List.countP_cons]
    by_cases h1 : r.resultat = some "Victòria"
    · simp [matchPoints, h1]; ring
    · by_cases h2 : r.resultat = some "Empat"
      · simp [matchPoints, h1, h2]; ring
      · simp [matchPoints, h1, h2]

lemma intBle_total (a b : Int) : intBle a b = true ∨ intBle b a = true := by
  simp only [intBle, decide_eq_true_eq]
  omega

lemma intBle_trans (a b c : Int) (hab : intBle a b = true) (hbc : intBle b c = true) :
    intBle a c = true := by
  simp only [intBle, decide_eq_true_eq] at *
  omega

lemma F64.ble_total (a b : F64) : F64.ble a b = true ∨ F64.ble b a = true := by
  cases a <;> cases b <;> simp [F64.ble]
  exact le_total _ _

lemma F64.ble_trans (a b c : F64) (hab : F64.ble a b = true) (hbc : F64.ble b c = true) :
    F64.ble a c = true := by
  cases a <;> cases b <;> cases c <;> simp_all [F64.ble]
  exact le_trans hab hbc

lemma load_players_mem {raws : List RawPlayerRow} {p : PlayerRecord}
    (hp : p ∈ load_players raws) :
    ∃ r ∈ raws, p = roundPlayerRecord (coercePlayerRow (readPlayerRow r)) ∧
      (readPlayerRow r).jugador.isSome = true ∧
      (coercePlayerRow (readPlayerRow r)).partits.isSome = true := by
  unfold load_players at hp
  simp only [List.mem_map, List.mem_filter] at hp
  obtain ⟨x, ⟨⟨y, ⟨⟨r, hr, rfl⟩, hj⟩, rfl⟩, hq⟩, rfl⟩ := hp
  exact ⟨r, hr, rfl, hj, hq⟩

lemma castMinutsCol_of_parse_none {c : Option String} (h : castFloatCol c = none) :
    castMinutsCol c = some 0 := by
  simp only [castMinutsCol, h, Option.getD_none]
  norm_num [castF64Int64, f64TruncToInt]

lemma get_top_player_none_iff {α : Type} (ble : α → α → Bool) (df : List PlayerRecord)
    (col : PlayerRecord → Option α) (label : String) :
    get_top_player ble df col label = none ↔
      df.filter (fun p => (col p).isSome) = [] := by
  unfold get_top_player
  by_cases hv : (df.filter fun p => (col p).isSome).isEmpty
  · simp [hv, List.isEmpty_iff.mp hv]
  · rw [if_neg hv]
    have hne : df.filter (fun p => (col p).isSome) ≠ [] := by
      intro h; rw [h] at hv; exact hv rfl
    cases hs : List.insertionSort
        (fun a b => optBle ble (col b) (col a) = true)
        (df.filter fun p => (col p).isSome) with
    | nil =>
      exfalso
      have hlen := (List.perm_insertionSort
        (fun a b => optBle ble (col b) (col a) = true)
        (df.filter fun p => (col p).isSome)).length_eq
      rw [hs] at hlen
      exact hne (List.length_eq_zero.mp hlen.symm)
    | cons top rest => simp [hne]

lemma get_top_player_some {α : Type} (ble : α → α → Bool) (df : List PlayerRecord)
    (col : PlayerRecord → Option α) (label : String)
    (htot : ∀ a b, ble a b = true ∨ ble b a = true)
    (htrans : ∀ a b c, ble a b = true → ble b c = true → ble a c = true)
    (e : TopEntry α) (he : get_top_player ble df col label = some e) :
    ∃ p, p ∈ df ∧ (col p).isSome = true ∧ e.name = p.jugador ∧ e.value = col p ∧
      ∀ q ∈ df, (col q).isSome = true → optBle ble (col q) (col p) = true := by
  haveI hTot : IsTotal PlayerRecord (fun a b => optBle ble (col b) (col a) = true) := by
    constructor
    intro a b
    cases hb : col b <;> cases ha : col a <;> simp [optBle]
    exact htot _ _
  haveI hTrans : IsTrans PlayerRecord (fun a b => optBle ble (col b) (col a) = true) := by
    constructor
    intro a b c hab hbc
    cases hc : col c <;> cases hb : col b <;> cases ha : col a <;>
      simp_all [optBle]
    exact htrans _ _ _ hbc hab
  unfold get_top_player at he
  by_cases hv : (df.filter fun p => (col p).isSome).isEmpty
  · rw [if_pos hv] at he; exact absurd he (by simp)
  · rw [if_neg hv] at he
    cases hs : List.insertionSort
        (fun a b => optBle ble (col b) (col a) = true)
        (df.filter fun p => (col p).isSome) with
    | nil => rw [hs] at he; exact absurd he (by simp)
    | cons top rest =>
      rw [hs] at he
      have he' : e = ⟨top.jugador, col top, label⟩ := by
        have := Option.some.inj he; exact this.symm
      subst he'
      have hperm := List.perm_insertionSort
        (fun a b => optBle ble (col b) (col a) = true)
        (df.filter fun p => (col p).isSome)
      have htop_valid : top ∈ df.filter fun p => (col p).isSome := by
        refine hperm.mem_iff.mp ?_
        rw [hs]; exact List.mem_cons_self _ _
      have htop_df := (List.mem_filter.mp htop_valid).1
      have htop_some : (col top).isSome = true := by
        simpa using (List.mem_filter.mp htop_valid).2
      refine ⟨top, htop_df, htop_some, rfl, rfl, ?_⟩
      intro q hq hqs
      have hq_valid : q ∈ df.filter fun p => (col p).isSome :=
        List.mem_filter.mpr ⟨hq, by simpa using hqs⟩
      have hq_sorted : q ∈ List.insertionSort
          (fun a b => optBle ble (col b) (col a) = true)
          (df.filter fun p => (col p).isSome) :=
        (List.mem_insertionSort _).mpr hq_valid
      rw [hs] at hq_sorted
      rcases List.mem_cons.mp hq_sorted with rfl | hrest
      · obtain ⟨v, hv'⟩ := Option.isSome_iff_exists.mp htop_some
        rw [hv']
        simp only [optBle]
        rcases htot v v with h | h <;> exact h
      · have hsorted := List.sorted_insertionSort
          (fun a b => optBle ble (col b) (col a) = true)
          (df.filter fun p => (col p).isSome)
        rw [hs] at hsorted
        exact List.rel_of_sorted_cons hsorted q hrest

/-- C1: the claim says a whole-table load failure is non-fatal: the Loader
yields an empty record set and every downstream stage still runs, with no
exception crossing the pipeline boundary.  The code does log and substitute
`pl.DataFrame()` (build.py lines 63-65), but that frame has an empty
schema, so the very next stage `calculate_stats` resolves the missing
column "Resultat" (build.py line 86) and raises `ColumnNotFoundError`,
which nothing in `main` catches.  The first conjunct evaluates the code at
the failing input; the second shows the claimed behaviour does hold
whenever the weeks frame was actually read (full schema), isolating the
schemaless fallback as the failing case. -/
theorem C1_load_failure_escapes :
    calculate_statsDF emptyWeeksFrame = Except.error "ColumnNotFoundError: Resultat" ∧
    (∀ rows : List MatchRecord,
      calculate_statsDF ⟨weeksSchema, rows⟩ = Except.ok (calculate_stats rows)) := by
  constructor
  · rfl
  · intro rows
    simp [calculate_statsDF, weeksSchema]

/-- C3 counterexample: the claim says the yellow-cards-per-match derivation
returns 0 whenever matches played is 0, but on 2 yellow cards and 0 matches
the code's `(Grogues / Partits).fill_nan(0)` produces the float division
`2 / 0 = +inf`, which `fill_nan` does not touch. -/
theorem C3_yellow_ratio_counterexample :
    grogues_Ratio (some 2) (some 0) = some F64.inf ∧
    grogues_Ratio (some 2) (some 0) ≠ some (F64.fin 0) := by decide

/-- C3 amended: the derivation is a pure function of (yellow cards, matches
played); the three cited examples hold, and 0 is substituted in the 0/0
case (the NaN filled by `fill_nan(0)`) — but a positive count over 0
matches yields `+inf`, a null operand propagates as null rather than 0, and
for non-zero matches the result is the exact quotient. -/
theorem C3_yellow_ratio_amended :
    grogues_Ratio (some 0) (some 0) = some (F64.fin 0) ∧
    grogues_Ratio (some 2) (some 4) = some (F64.fin (1 / 2)) ∧
    grogues_Ratio (some 0) (some 5) = some (F64.fin 0) ∧
    grogues_Ratio (some 2) (some 0) = some F64.inf ∧
    (∀ g : Option Int, grogues_Ratio g none = none) ∧
    (∀ p : Option Int, grogues_Ratio none p = none) ∧
    (∀ g p : Int, p ≠ 0 →
      grogues_Ratio (some g) (some p) = some (F64.fin ((g : Rat) / (p : Rat)))) := by
  refine ⟨by decide, ?_, ?_, by decide, ?_, ?_, ?_⟩
  · norm_num [grogues_Ratio, polarsDivInt, fill_nan0]
  · norm_num [grogues_Ratio, polarsDivInt, fill_nan0]
  · intro g; cases g <;> rfl
  · intro p; cases p <;> rfl
  · intro g p hp
    simp [grogues_Ratio, polarsDivInt, hp, fill_nan0]

/-- C3 amended witness: the quotient clause applied at 3 yellow cards over
4 matches. -/
theorem C3_yellow_ratio_witness :
    grogues_Ratio (some 3) (some 4) = some (F64.fin ((3 : Rat) / (4 : Rat))) :=
  C3_yellow_ratio_amended.2.2.2.2.2.2 3 4 (by decide)

/-- C6: the cumulative series builder sorts the clean match rows by
"Jornada" ascending and then scans them with win→3 / draw→1 / other→0
points and side-resolved goals; on the spec's two-row scenario (fixture 2
away win 1-3 listed first, fixture 1 home draw 1-1 second) it yields
cumulative points [1, 4], goals-for [1, 4], goals-against [1, 2]. -/
theorem C6_chart_scenario :
    (render_chart_data ex6matches).points = [1, 4] ∧
    (render_chart_data ex6matches).goals_for = [1, 4] ∧
    (render_chart_data ex6matches).goals_against = [1, 2] := by decide

/-- C7 counterexample: the claim says every retained player record has a
non-null "minutes without conceding" value for every raw cell content, but
a cell holding the numeral 10^19 parses as a float and then overflows the
`Int64` cast (`strict=False` turns the overflow into a null), so the
retained record carries a null. -/
theorem C7_minuts_counterexample :
    load_players [exRowOverflow] =
      [⟨some "A", some 5, none, none, none, none, none, none, none, none⟩] ∧
    ∃ p ∈ load_players [exRowOverflow], p.minutsSenseGols = none := by decide

/-- C2 counterexample: the claim quantifies over every clean match record
sequence, but the Loader only guarantees a non-null "Jornada"; a retained
row whose "Resultat" is a fourth value (here "Ajornat") is counted by none
of the three tallies, so wins + draws + losses falls short of the match
count. -/
theorem C2_result_tally_counterexample :
    ¬ ((calculate_stats [exBadResult]).total_wins +
        (calculate_stats [exBadResult]).total_draws +
        (calculate_stats [exBadResult]).total_losses =
      (calculate_stats [exBadResult]).total_matches) := by decide

/-- C2 amended: for every clean match record sequence in which each
record's result indicator is one of the three enumerated values
("Victòria", "Empat", "Derrota"), the SeasonStats tallies satisfy
wins + draws + losses = total match count. -/
theorem C2_result_tally_amended (df : List MatchRecord)
    (h : ∀ r ∈ df, r.resultat = some "Victòria" ∨ r.resultat = some "Empat" ∨
      r.resultat = some "Derrota") :
    (calculate_stats df).total_wins + (calculate_stats df).total_draws +
      (calculate_stats df).total_losses = (calculate_stats df).total_matches := by
  induction df with
  | nil => rfl
  | cons r t ih =>
    have ht := ih fun x hx => h x (List.mem_cons_of_mem _ hx)
    have hr := h r (List.mem_cons_self _ _)
    simp only [calculate_stats, countRes, List.countP_cons, List.length_cons] at *
    rcases hr with hr | hr | hr <;> simp [hr] <;> omega

/-- C2 amended witness: the tally identity at the spec's two-match
scenario. -/
theorem C2_result_tally_witness :
    (calculate_stats ex6matches).total_wins + (calculate_stats ex6matches).total_draws +
      (calculate_stats ex6matches).total_losses = (calculate_stats ex6matches).total_matches :=
  C2_result_tally_amended ex6matches (by decide)

/-- C4: the cumulative series has exactly one point per clean match, and on
a non-empty match set the last running totals agree with the SeasonStats
computed independently by `calculate_stats` — for the goals totals
directly, and for points through the only points total SeasonStats
determines, 3·wins + 1·draws. -/
theorem C4_chart_matches_stats (df : List MatchRecord) :
    (render_chart_data df).points.length = df.length ∧
    (render_chart_data df).goals_for.length = df.length ∧
    (render_chart_data df).goals_against.length = df.length ∧
    (df ≠ [] →
      (render_chart_data df).points.getLast? =
        some (3 * ((calculate_stats df).total_wins : Int) +
          ((calculate_stats df).total_draws : Int)) ∧
      (render_chart_data df).goals_for.getLast? =
        some (calculate_stats df).total_goals_for ∧
      (render_chart_data df).goals_against.getLast? =
        some (calculate_stats df).total_goals_against) := by
  have hperm : List.Perm (List.insertionSort (fun a b => a.jornada ≤ b.jornada) df) df :=
    List.perm_insertionSort _ df
  have hlen := hperm.length_eq
  refine ⟨?_, ?_, ?_, ?_⟩
  · rw [render_chart_data, chartScan_points_eq, runningList_length, hlen]
  · rw [render_chart_data, chartScan_goals_for_eq, runningList_length, hlen]
  · rw [render_chart_data, chartScan_goals_against_eq, runningList_length, hlen]
  · intro hne
    have hsne : List.insertionSort (fun a b => a.jornada ≤ b.jornada) df ≠ [] := by
      intro h0
      rw [h0] at hlen
      exact hne (List.length_eq_zero.mp hlen.symm)
    have hwins : countRes (List.insertionSort (fun a b => a.jornada ≤ b.jornada) df)
        "Victòria" = countRes df "Victòria" := List.Perm.countP_eq _ hperm
    have hdraws : countRes (List.insertionSort (fun a b => a.jornada ≤ b.jornada) df)
        "Empat" = countRes df "Empat" := List.Perm.countP_eq _ hperm
    refine ⟨?_, ?_, ?_⟩
    · rw [render_chart_data, chartScan_points_eq, runningList_getLast? _ _ _ hsne]
      have hsum : sumPts (List.insertionSort (fun a b => a.jornada ≤ b.jornada) df) =
          (((List.insertionSort (fun a b => a.jornada ≤ b.jornada) df).map
            matchPoints).sum) := rfl
      rw [← hsum, sumPts_eq, hwins, hdraws]
      simp [calculate_stats, countRes]
    · rw [render_chart_data, chartScan_goals_for_eq, runningList_getLast? _ _ _ hsne]
      have hsum : sumGF df = (calculate_stats df).total_goals_for :=
        (calculate_stats_goals df).1.symm
      have hp : ((List.insertionSort (fun a b => a.jornada ≤ b.jornada) df).map
          (fun r => (matchGoals r).1)).sum = sumGF df :=
        (List.Perm.map _ hperm).sum_eq
      rw [hp, hsum, zero_add]
    · rw [render_chart_data, chartScan_goals_against_eq, runningList_getLast? _ _ _ hsne]
      have hsum : sumGA df = (calculate_stats df).total_goals_against :=
        (calculate_stats_goals df).2.symm
      have hp : ((List.insertionSort (fun a b => a.jornada ≤ b.jornada) df).map
          (fun r => (matchGoals r).2)).sum = sumGA df :=
        (List.Perm.map _ hperm).sum_eq
      rw [hp, hsum, zero_add]

/-- C4 witness: the length and last-totals identities at the spec's
two-match scenario. -/
theorem C4_chart_matches_stats_witness :
    (render_chart_data ex6matches).points.length = ex6matches.length ∧
    (render_chart_data ex6matches).points.getLast? =
      some (3 * ((calculate_stats ex6matches).total_wins : Int) +
        ((calculate_stats ex6matches).total_draws : Int)) ∧
    (render_chart_data ex6matches).goals_for.getLast? =
      some (calculate_stats ex6matches).total_goals_for := by
  have h := C4_chart_matches_stats ex6matches
  have h4 := h.2.2.2 (by decide)
  exact ⟨h.1, h4.1, h4.2.1⟩

/-- C5 counterexample: the claim asserts the running goal totals are
non-decreasing for every input match sequence, but score cells are signed
`Int64` values; a clean row with a negative home score makes the running
goals-for total decrease. -/
theorem C5_monotone_counterexample :
    ¬ List.Chain' (· ≤ ·) (render_chart_data exNegMatches).goals_for := by
  have h : (render_chart_data exNegMatches).goals_for = [1, 0] := by decide
  rw [h]
  intro hc
  have h1 := (List.chain'_cons.mp hc).1
  norm_num at h1

/-- C5 amended: the running point total is monotonically non-decreasing for
every input match sequence (each increment is 3, 1 or 0), and the running
goals-for and goals-against totals are monotonically non-decreasing
provided every score cell is non-negative (null scores count as 0). -/
theorem C5_monotone_amended (df : List MatchRecord) :
    List.Chain' (· ≤ ·) (render_chart_data df).points ∧
    ((∀ r ∈ df, 0 ≤ r.marcadorLocal.getD 0 ∧ 0 ≤ r.marcadorVisitant.getD 0) →
      List.Chain' (· ≤ ·) (render_chart_data df).goals_for ∧
      List.Chain' (· ≤ ·) (render_chart_data df).goals_against) := by
  constructor
  · rw [render_chart_data, chartScan_points_eq]
    exact runningList_chain' _ _ (fun r _ => matchPoints_nonneg r) 0
  · intro h
    have h' : ∀ r ∈ List.insertionSort (fun a b => a.jornada ≤ b.jornada) df,
        0 ≤ (matchGoals r).1 ∧ 0 ≤ (matchGoals r).2 := by
      intro r hr
      have hr' : r ∈ df := (List.mem_insertionSort _).mp hr
      exact matchGoals_nonneg (h r hr').1 (h r hr').2
    constructor
    · rw [render_chart_data, chartScan_goals_for_eq]
      exact runningList_chain' _ _ (fun r hr => (h' r hr).1) 0
    · rw [render_chart_data, chartScan_goals_against_eq]
      exact runningList_chain' _ _ (fun r hr => (h' r hr).2) 0

/-- C5 amended witness: monotone goal series at the spec's two-match
scenario, whose scores are all non-negative. -/
theorem C5_monotone_witness :
    List.Chain' (· ≤ ·) (render_chart_data ex6matches).points ∧
    List.Chain' (· ≤ ·) (render_chart_data ex6matches).goals_for ∧
    List.Chain' (· ≤ ·) (render_chart_data ex6matches).goals_against := by
  have h := C5_monotone_amended ex6matches
  have h2 := h.2 (by decide)
  exact ⟨h.1, h2.1, h2.2⟩

/-- C7 amended: the "Minuts sense gols (porter)" pipeline replaces null
with 0 before the integer coercion, so an absent cell, the error token, or
a cell that fails float parsing all load as the integer 0; the only way a
retained record carries a null in this field is a cell that does parse as a
float but fails the `strict=False` `Int64` cast (non-finite value or value
outside the `Int64` range). -/
theorem C7_minuts_amended :
    (∀ c : Option String, castFloatCol (readCell c) = none →
      castMinutsCol (readCell c) = some 0) ∧
    (∀ raws : List RawPlayerRow, ∀ p ∈ load_players raws,
      p.minutsSenseGols = none →
      ∃ r ∈ raws, (castFloatCol (readCell r.minutsSenseGols)).isSome = true ∧
        castMinutsCol (readCell r.minutsSenseGols) = none) := by
  constructor
  · intro c h
    exact castMinutsCol_of_parse_none h
  · intro raws p hp hnone
    obtain ⟨r, hr, rfl, _, _⟩ := load_players_mem hp
    have hmin : (roundPlayerRecord (coercePlayerRow (readPlayerRow r))).minutsSenseGols =
        castMinutsCol (readCell r.minutsSenseGols) := rfl
    rw [hmin] at hnone
    refine ⟨r, hr, ?_, hnone⟩
    cases hf : castFloatCol (readCell r.minutsSenseGols) with
    | none =>
      rw [castMinutsCol_of_parse_none hf] at hnone
      exact absurd hnone (by simp)
    | some v => rfl

/-- C7 amended witness: the zero-substitution clause at an unparseable
cell, and the null-provenance clause at the 10^19 overflow row. -/
theorem C7_minuts_witness :
    castMinutsCol (readCell (some "abc")) = some 0 ∧
    ∃ r ∈ [exRowOverflow], (castFloatCol (readCell r.minutsSenseGols)).isSome = true ∧
      castMinutsCol (readCell r.minutsSenseGols) = none := by
  constructor
  · exact C7_minuts_amended.1 (some "abc") (by decide)
  · exact C7_minuts_amended.2 [exRowOverflow]
      ⟨some "A", some 5, none, none, none, none, none, none, none, none⟩
      (by decide) (by decide)

/-- C8: loader coercion is non-strict and total: the division-by-zero
error token reads as null for any configured column (for the
"Minuts sense gols (porter)" column that null is then filled to 0); a
failed integer or float coercion yields null for the cell; the comma
decimal "3,50" is normalized to "3.50" and coerces to the float 3.50; and
a row whose "Gols" cell fails coercion is still retained (only the
"Jugador" and "Partits" filters drop rows), carrying a null in that cell.
Raising is not possible by construction: every coercion is a total
function into an `Option` type. -/
theorem C8_loader_coercion :
    readCell (some "#DIV/0!") = none ∧
    castIntCol (readCell (some "#DIV/0!")) = none ∧
    castFloatCol (readCell (some "#DIV/0!")) = none ∧
    castMinutsCol (readCell (some "#DIV/0!")) = some 0 ∧
    castIntCol (some "abc") = none ∧
    castFloatCol (some "abc") = none ∧
    replaceFirstComma "3,50" = "3.50" ∧
    castFloatCol (some "3,50") = some (F64.fin (7 / 2)) ∧
    (∀ g : Option String,
      load_players [⟨some "A", some "5", g, none, none, none, none, none, none, none⟩] =
        [⟨some "A", some 5, castIntCol (readCell g), none, none, none, none, none, none,
          some 0⟩]) := by
  refine ⟨by decide, by decide, by decide, by decide, by decide, by decide, by decide,
    ?_, ?_⟩
  · have h1 : castFloatCol (some "3,50") =
        some (F64.fin (((3 : Nat) : Rat) + ((50 : Nat) : Rat) / (10 : Rat) ^ (2 : Nat))) :=
      rfl
    have h2 : ((3 : Nat) : Rat) + ((50 : Nat) : Rat) / (10 : Rat) ^ (2 : Nat) = 7 / 2 := by
      push_cast
      norm_num
    rw [h1, h2]
  · intro g
    have h5 : parseInt64 "5" = some 5 := by decide
    have hm : castMinutsCol none = some 0 := by decide
    simp [load_players, readPlayerRow, coercePlayerRow, roundPlayerRecord, readCell,
      castIntCol, castFloatCol, h5, hm]

/-- C9: for the leaderboard metrics, players whose source value for the
metric is null are excluded from consideration (the eligible pool is the
null-filtered list, and an empty pool produces no entry), and the selected
entry carries an eligible player attaining the maximum value under the
column's sort order; metrics 1-5 are instances of `get_top_player` (see
`top_scorer` through `top_gk`), metric 6 inlines the identical pipeline
(second conjunct), and on players with 5, 9 and null goals the "Most
goals" entry names the 9-goal player. -/
theorem C9_leaderboard_max :
    (∀ (α : Type) (ble : α → α → Bool) (df : List PlayerRecord)
        (col : PlayerRecord → Option α) (label : String),
      (∀ a b, ble a b = true ∨ ble b a = true) →
      (∀ a b c, ble a b = true → ble b c = true → ble a c = true) →
      (get_top_player ble df col label = none ↔
        df.filter (fun p => (col p).isSome) = []) ∧
      (∀ e, get_top_player ble df col label = some e →
        ∃ p, p ∈ df ∧ (col p).isSome = true ∧ e.name = p.jugador ∧ e.value = col p ∧
          ∀ q ∈ df, (col q).isSome = true → optBle ble (col q) (col p) = true)) ∧
    (∀ df, top_win_rate df =
      get_top_player F64.ble df (fun p => p.winRate) "Major % Victòria") ∧
    top_scorer exC9players = some ⟨some "B", some 9, "Màxim Golejador"⟩ := by
  refine ⟨?_, fun df => rfl, by decide⟩
  intro α ble df col label htot htrans
  exact ⟨get_top_player_none_iff ble df col label,
    fun e he => get_top_player_some ble df col label htot htrans e he⟩

/-- C9 witness: the maximality clause instantiated at the goals column on
the 5 / 9 / null example. -/
theorem C9_leaderboard_max_witness :
    ∃ p, p ∈ exC9players ∧ (p.gols).isSome = true ∧
      (some "B" : Option String) = p.jugador ∧ (some (9 : Int) : Option Int) = p.gols ∧
      ∀ q ∈ exC9players, (q.gols).isSome = true → optBle intBle q.gols p.gols = true := by
  have h := (C9_leaderboard_max.1 Int intBle exC9players (fun p => p.gols)
      "Màxim Golejador" intBle_total intBle_trans).2
    ⟨some "B", some 9, "Màxim Golejador"⟩ (by decide)
  exact h

/-- C10: the Loader drops a players row whose "Jugador" cell is null (or
the error token, which reads as null) before any numeric coercion — the
name filter at build.py line 18 runs before the casts of lines 22-44 — so
every retained record has a non-null name, even when "Partits" is valid. -/
theorem C10_null_name_dropped :
    (∀ raws : List RawPlayerRow, ∀ p ∈ load_players raws, p.jugador ≠ none) ∧
    load_players [⟨none, some "5", none, none, none, none, none, none, none, none⟩] = [] ∧
    load_players
      [⟨some "#DIV/0!", some "5", none, none, none, none, none, none, none, none⟩] = [] := by
  refine ⟨?_, by decide, by decide⟩
  intro raws p hp
  obtain ⟨r, _, rfl, hj, _⟩ := load_players_mem hp
  have hjug : (roundPlayerRecord (coercePlayerRow (readPlayerRow r))).jugador =
      (readPlayerRow r).jugador := rfl
  rw [hjug]
  exact Option.isSome_iff_ne_none.mp hj

/-- C10 witness: the non-null-name invariant at a concrete retained
record. -/
theorem C10_null_name_dropped_witness :
    ({ jugador := some "A", partits := some 5, gols := none, assistencies := none,
        grogues := none, vermelles := none, winRate := none, golsXPartit := none,
        assitenciesXPartit := none, minutsSenseGols := some 0 } : PlayerRecord).jugador ≠
      none :=
  C10_null_name_dropped.1
    [⟨some "A", some "5", none, none, none, none, none, none, none, none⟩] _ (by decide)
